import Mathlib

/-!
Verification development for the OpenSecret SDK Rust client
(attestation verification and attested secure-channel establishment).

The Rust sources are shallowly embedded:
 * bytes (`u8`) become `Nat`, byte strings (`Vec<u8>` / `&[u8]`) become `List Nat`;
 * `serde_cbor::Value` becomes the inductive `CborValue`;
 * fallible Rust functions returning `Result<T, Error>` become `Except Err T`;
 * the stateful client handshake (`client.rs`) becomes explicit state passing
   over a `ClientState` record;
 * external crates (base64, serde_cbor byte-level codec, x509-parser, ring,
   chacha20poly1305, x25519-dalek, uuid) are modelled at their interface
   boundary by the `ExtEnv` structure of abstract functions.  The certificate
   data read off a parsed `X509Certificate` is captured by the `Cert` record;
   its `validityOk` field records the value of `cert.validity().is_valid()`
   at the (single) instant the verification runs.
-/

/-- Model of `serde_cbor::Value` (attestation.rs, client.rs). -/
inductive CborValue where
  | null : CborValue
  | bool : Bool → CborValue
  | int : Int → CborValue
  | float : CborValue
  | bytes : List Nat → CborValue
  | text : String → CborValue
  | array : List CborValue → CborValue
  | map : List (CborValue × CborValue) → CborValue
  | tag : Nat → CborValue → CborValue

/-- `true` exactly when the value is a CBOR byte string. -/
def CborValue.isBytes : CborValue → Bool
  | .bytes _ => true
  | _ => false

/-- `true` exactly when the value is a CBOR array. -/
def CborValue.isArray : CborValue → Bool
  | .array _ => true
  | _ => false

/-- Model of the SDK error enum (error.rs).  String payloads keep the static
part of the formatted Rust message. -/
inductive Err where
  | cbor : Err
  | crypto : String → Err
  | attestationVerificationFailed : String → Err
  | session : String → Err
  | keyExchange : String → Err
  | encryption : String → Err
  | decryption : String → Err
  | authentication : String → Err
  | api : Nat → String → Err
  | base64Decode : Err
deriving DecidableEq

/-- Model of `AttestationDocument` (attestation.rs).  The `pcrs` hash map is
an association list with unique keys maintained by `pcrsInsert`. -/
structure AttestationDocument where
  module_id : String
  timestamp : Nat
  digest : String
  pcrs : List (Nat × List Nat)
  certificate : List Nat
  cabundle : List (List Nat)
  public_key : Option (List Nat)
  user_data : Option (List Nat)
  nonce : Option (List Nat)
deriving DecidableEq

/-- The zero-initialised document that `parse_attestation_document` starts
from (attestation.rs lines 148-158). -/
def emptyAttestationDocument : AttestationDocument :=
  { module_id := ""
    timestamp := 0
    digest := ""
    pcrs := []
    certificate := []
    cabundle := []
    public_key := none
    user_data := none
    nonce := none }

/-- The data the Rust code reads off a parsed `X509Certificate`
(x509-parser crate, external).  `validityOk` is `cert.validity().is_valid()`
at the instant of verification. -/
structure Cert where
  issuer : List Nat
  subject : List Nat
  validityOk : Bool
  sigOid : String
  pubkeyRaw : List Nat
  tbs : List Nat
  sigValue : List Nat
deriving DecidableEq, Inhabited

/-- Interface boundary of the external crates used by the SDK.  All are
deterministic functions; instantiating them freely models all possible
behaviours of the external collaborators. -/
structure ExtEnv where
  b64decode : String → Option (List Nat)
  cborDecode : List Nat → Option CborValue
  utf8 : List Nat → Option String
  parseX509 : List Nat → Option Cert
  ecdsaVerify : String → List Nat → List Nat → List Nat → Bool
  ecdsaVerifyFixed : List Nat → List Nat → List Nat → Bool
  cborEncodeSig : List Nat → List Nat → Option (List Nat)
  aeadEncrypt : List Nat → List Nat → List Nat → Option (List Nat)
  aeadDecrypt : List Nat → List Nat → List Nat → Option (List Nat)
  dh : List Nat → List Nat → List Nat
  parseUuid : String → Option Nat
  tokenHeaderOk : String → Bool
  rootCert : List Nat

/-- `HashMap::insert` on the `pcrs` association list: replace the value of an
existing key or append a new binding. -/
def pcrsInsert : List (Nat × List Nat) → Nat → List Nat → List (Nat × List Nat)
  | [], k, v => [(k, v)]
  | (k0, v0) :: rest, k, v =>
    if k0 = k then (k, v) :: rest else (k0, v0) :: pcrsInsert rest k v

/-- The inner loop over the `pcrs` CBOR map (attestation.rs lines 216-241). -/
def parsePcrEntries : List (CborValue × CborValue) → List (Nat × List Nat) →
    Except Err (List (Nat × List Nat))
  | [], acc => .ok acc
  | (k, v) :: rest, acc =>
    match k with
    | .int i =>
      if 0 ≤ i then
        match v with
        | .bytes b => parsePcrEntries rest (pcrsInsert acc i.toNat b)
        | _ => .error (.attestationVerificationFailed "Invalid PCR value")
      else .error (.attestationVerificationFailed "Invalid PCR index: negative value")
    | _ => .error (.attestationVerificationFailed "Invalid PCR index: not an integer")

/-- The loop over the `cabundle` CBOR array (attestation.rs lines 263-273). -/
def parseBundleEntries : List CborValue → Except Err (List (List Nat))
  | [] => .ok []
  | c :: rest =>
    match c with
    | .bytes b => (parseBundleEntries rest).map (fun bs => b :: bs)
    | _ => .error (.attestationVerificationFailed "Invalid certificate in bundle")

/-- One arm of the key dispatch in `parse_attestation_document`
(attestation.rs lines 170-294).  An optional key with a non-byte-string
value is mapped to `none`, exactly as the Rust `_ => None` arms do. -/
def updateDocField (doc : AttestationDocument) (key : String) (v : CborValue) :
    Except Err AttestationDocument :=
  if key = "module_id" then
    match v with
    | .text s => .ok { doc with module_id := s }
    | _ => .error (.attestationVerificationFailed "Invalid module_id")
  else if key = "timestamp" then
    match v with
    | .int i =>
      if 0 ≤ i then .ok { doc with timestamp := i.toNat }
      else .error (.attestationVerificationFailed "Invalid timestamp: negative value")
    | _ => .error (.attestationVerificationFailed "Invalid timestamp: not an integer")
  else if key = "digest" then
    match v with
    | .text s => .ok { doc with digest := s }
    | _ => .error (.attestationVerificationFailed "Invalid digest")
  else if key = "pcrs" then
    match v with
    | .map m => (parsePcrEntries m doc.pcrs).map (fun p => { doc with pcrs := p })
    | _ => .error (.attestationVerificationFailed "Invalid PCRs format")
  else if key = "certificate" then
    match v with
    | .bytes b => .ok { doc with certificate := b }
    | _ => .error (.attestationVerificationFailed "Invalid certificate")
  else if key = "cabundle" then
    match v with
    | .array a => (parseBundleEntries a).map (fun bs => { doc with cabundle := doc.cabundle ++ bs })
    | _ => .error (.attestationVerificationFailed "Invalid cabundle")
  else if key = "public_key" then
    .ok { doc with public_key := match v with | .bytes b => some b | _ => none }
  else if key = "user_data" then
    .ok { doc with user_data := match v with | .bytes b => some b | _ => none }
  else if key = "nonce" then
    .ok { doc with nonce := match v with | .bytes b => some b | _ => none }
  else .ok doc

/-- The loop over the document map entries (attestation.rs lines 160-295);
a non-text key is an error. -/
def parseDocEntries : List (CborValue × CborValue) → AttestationDocument →
    Except Err AttestationDocument
  | [], doc => .ok doc
  | (k, v) :: rest, doc =>
    match k with
    | .text s =>
      match updateDocField doc s v with
      | .error e => .error e
      | .ok doc2 => parseDocEntries rest doc2
    | _ => .error (.attestationVerificationFailed "Invalid key in attestation document")

/-- `AttestationVerifier::parse_attestation_document` (attestation.rs
lines 138-298), from the decoded payload CBOR value. -/
def parse_attestation_document (cbor : CborValue) : Except Err AttestationDocument :=
  match cbor with
  | .map m => parseDocEntries m emptyAttestationDocument
  | _ => .error (.attestationVerificationFailed "Invalid attestation document format")

/-- One iteration of the tag-scan loop in `extract_ec_point`
(attestation.rs lines 557-576): a byte `0x03` whose two following guard
bytes are `0x00` and `0x04` and whose trailing slice has exactly the
expected size yields that trailing slice. -/
def ecScanAt (b : List Nat) (expected i : Nat) : Option (List Nat) :=
  if b.getD i 0 = 3 ∧ i + 2 < b.length ∧ i + 3 < b.length ∧
     b.getD (i + 2) 0 = 0 ∧ b.getD (i + 3) 0 = 4 ∧ (b.drop (i + 3)).length = expected
  then some (b.drop (i + 3))
  else none

/-- One offset probe of the `extract_ec_point` fallback (attestation.rs
lines 589-596): accept the `expected`-byte window at `off` when it fits and
starts with the uncompressed-point marker `0x04`. -/
def ecOffsetTry (b : List Nat) (expected off : Nat) : Option (List Nat) :=
  if off + expected ≤ b.length then
    let candidate := (b.drop off).take expected
    if candidate.headD 0 = 4 then some candidate else none
  else none

/-- The fallback of `extract_ec_point` (attestation.rs lines 578-597): try the
trailing `expected`-byte window, then the fixed offsets 23-27, accepting any
window that starts with the uncompressed-point marker `0x04`. -/
def ecFallback (b : List Nat) (expected : Nat) : Option (List Nat) :=
  if expected ≤ b.length then
    let fromEnd := b.drop (b.length - expected)
    if fromEnd.headD 0 = 4 then some fromEnd
    else [23, 24, 25, 26, 27].findSome? (ecOffsetTry b expected)
  else none

/-- `extract_ec_point` (attestation.rs lines 541-604). -/
def extract_ec_point (b : List Nat) (expected : Nat) : Except Err (List Nat) :=
  match (List.range b.length).findSome? (ecScanAt b expected) with
  | some r => .ok r
  | none =>
    match ecFallback b expected with
    | some r => .ok r
    | none => .error (.attestationVerificationFailed "Failed to extract EC public key point")

/-- `AttestationVerifier::verify_cert_signature` (attestation.rs
lines 405-464): re-parse the certificate, check its declared signature
algorithm OID, extract the issuer public key EC point (97 bytes for P-384,
65 for P-256) and verify the TBS signature.  An unsupported OID returns
`Ok false`; a failed cryptographic verification is an error. -/
def verify_cert_signature (E : ExtEnv) (cert_der : List Nat) (issuer : Cert) :
    Except Err Bool :=
  match E.parseX509 cert_der with
  | none => .error (.attestationVerificationFailed
      "Failed to parse certificate for signature verification")
  | some cert =>
    if cert.sigOid ≠ "1.2.840.10045.4.3.3" ∧ cert.sigOid ≠ "1.2.840.10045.4.3.2" then
      .ok false
    else
      match extract_ec_point issuer.pubkeyRaw
          (if cert.sigOid = "1.2.840.10045.4.3.3" then 97 else 65) with
      | .error e => .error e
      | .ok ecPoint =>
        if E.ecdsaVerify cert.sigOid ecPoint cert.tbs cert.sigValue then .ok true
        else .error (.attestationVerificationFailed
          "Certificate signature verification failed")

/-- The parse-and-validity loop over the bundle (attestation.rs
lines 320-338), with the running index used in the error message. -/
def parseAllCerts (E : ExtEnv) : Nat → List (List Nat) → Except Err (List Cert)
  | _, [] => .ok []
  | i, der :: rest =>
    match E.parseX509 der with
    | none => .error (.attestationVerificationFailed
        ("Failed to parse certificate " ++ toString i))
    | some c =>
      if c.validityOk then (parseAllCerts E (i + 1) rest).map (fun cs => c :: cs)
      else .error (.attestationVerificationFailed
        ("Certificate " ++ toString i ++ " is expired or not yet valid"))

/-- The `for i in 1..certs.len()` chain-link loop (attestation.rs
lines 359-381), iterating over the given index list. -/
def verifyChainSteps (E : ExtEnv) (cab : List (List Nat)) (certs : List Cert) :
    List Nat → Except Err Unit
  | [] => .ok ()
  | i :: rest =>
    if (certs.getD i default).issuer ≠ (certs.getD (i - 1) default).subject then
      .error (.attestationVerificationFailed
        ("Certificate " ++ toString i ++ " issuer does not match certificate " ++ toString (i - 1) ++ " subject - chain is broken"))
    else
      match verify_cert_signature E (cab.getD i []) (certs.getD (i - 1) default) with
      | .error e => .error e
      | .ok b =>
        if b then verifyChainSteps E cab certs rest
        else
          .error (.attestationVerificationFailed
            ("Certificate " ++ toString i ++ " signature verification failed (not signed by certificate " ++ toString (i - 1) ++ ")"))

/-- `AttestationVerifier::verify_certificate_chain` (attestation.rs
lines 300-403).  `allowDebug` is the verifier `allow_debug` flag;
`E.rootCert` is the pinned `AWS_NITRO_ROOT_CERT` DER constant. -/
def verify_certificate_chain (E : ExtEnv) (allowDebug : Bool)
    (doc : AttestationDocument) : Except Err Unit :=
  if allowDebug && doc.module_id.startsWith "mock-" then .ok ()
  else if doc.cabundle.isEmpty then
    .error (.attestationVerificationFailed "Certificate bundle is empty")
  else if doc.cabundle.headD [] ≠ E.rootCert then
    .error (.attestationVerificationFailed
      "First certificate does not match AWS Nitro root certificate")
  else
    match parseAllCerts E 0 doc.cabundle with
    | .error e => .error e
    | .ok certs =>
      match E.parseX509 doc.certificate with
      | none => .error (.attestationVerificationFailed "Failed to parse leaf certificate")
      | some leaf =>
        if !leaf.validityOk then
          .error (.attestationVerificationFailed
            "Leaf certificate is expired or not yet valid")
        else
          match verifyChainSteps E doc.cabundle certs
              (List.range' 1 (certs.length - 1)) with
          | .error e => .error e
          | .ok _ =>
            match certs.getLast? with
            | none => .ok ()
            | some last =>
              if leaf.issuer ≠ last.subject then
                .error (.attestationVerificationFailed
                  "Leaf certificate issuer does not match last certificate in chain")
              else
                match verify_cert_signature E doc.certificate last with
                | .error e => .error e
                | .ok b =>
                  if b then .ok ()
                  else .error (.attestationVerificationFailed
                    "Leaf certificate signature verification failed")

/-- The COSE_Sign1 envelope checks of `verify_attestation_document`
(attestation.rs lines 56-100): outer value must be an array of exactly four
elements, and elements 0, 2 and 3 must be byte strings (protected header,
payload, signature).  Element 1 is never inspected. -/
def decodeCoseEnvelope (cbor : CborValue) :
    Except Err (List Nat × List Nat × List Nat) :=
  match cbor with
  | .array arr =>
    if arr.length ≠ 4 then
      .error (.attestationVerificationFailed "COSE_Sign1 must have 4 elements")
    else
      match arr.getD 0 .null with
      | .bytes prot =>
        match arr.getD 2 .null with
        | .bytes payload =>
          match arr.getD 3 .null with
          | .bytes sig => .ok (prot, payload, sig)
          | _ => .error (.attestationVerificationFailed "Invalid signature")
        | _ => .error (.attestationVerificationFailed "Invalid payload")
      | _ => .error (.attestationVerificationFailed "Invalid protected header")
  | _ => .error (.attestationVerificationFailed "Invalid COSE_Sign1 structure")

/-- `AttestationVerifier::verify_signature` (attestation.rs lines 466-512):
COSE signature verification against the leaf certificate with the fixed
(r,s) ECDSA P-384 algorithm, skipped in debug mode for mock modules. -/
def verify_signature (E : ExtEnv) (allowDebug : Bool)
    (prot payload sigBytes : List Nat) (doc : AttestationDocument) :
    Except Err Unit :=
  if allowDebug && doc.module_id.startsWith "mock-" then .ok ()
  else
    match E.parseX509 doc.certificate with
    | none => .error (.attestationVerificationFailed "Failed to parse leaf certificate")
    | some cert =>
      match extract_ec_point cert.pubkeyRaw 97 with
      | .error e => .error e
      | .ok pk =>
        match E.cborEncodeSig prot payload with
        | none => .error .cbor
        | some sigStructure =>
          if E.ecdsaVerifyFixed pk sigStructure sigBytes then .ok ()
          else .error (.attestationVerificationFailed "Signature verification failed")

/-- Association-list lookup used for `doc.pcrs.get(index)`. -/
def pcrsGet : List (Nat × List Nat) → Nat → Option (List Nat)
  | [], _ => none
  | (k, v) :: rest, i => if k = i then some v else pcrsGet rest i

/-- `AttestationVerifier::verify_pcrs` (attestation.rs lines 514-538). -/
def verify_pcrs (doc : AttestationDocument) :
    List (Nat × List Nat) → Except Err Unit
  | [] => .ok ()
  | (index, expectedValue) :: rest =>
    match pcrsGet doc.pcrs index with
    | some actual =>
      if actual ≠ expectedValue then
        .error (.attestationVerificationFailed ("PCR" ++ toString index ++ " mismatch"))
      else verify_pcrs doc rest
    | none => .error (.attestationVerificationFailed ("PCR" ++ toString index ++ " missing"))

/-- `AttestationVerifier::verify_attestation_document` (attestation.rs
lines 49-136): base64 decode, CBOR decode, envelope checks, payload parse,
nonce check (never skipped), chain validation, COSE signature check and the
optional PCR check.  `allowDebug` is `allow_debug`; `expectedPcrs` is
`expected_pcrs`. -/
def verify_attestation_document (E : ExtEnv) (allowDebug : Bool)
    (expectedPcrs : Option (List (Nat × List Nat)))
    (document_b64 expected_nonce : String) : Except Err AttestationDocument :=
  match E.b64decode document_b64 with
  | none => .error .base64Decode
  | some documentBytes =>
    match E.cborDecode documentBytes with
    | none => .error .cbor
    | some cbor =>
      match decodeCoseEnvelope cbor with
      | .error e => .error e
      | .ok (prot, payload, sig) =>
        match E.cborDecode payload with
        | none => .error .cbor
        | some docCbor =>
          match parse_attestation_document docCbor with
          | .error e => .error e
          | .ok doc =>
            match doc.nonce with
            | none => .error (.attestationVerificationFailed
                "Missing nonce in attestation document")
            | some nonceBytes =>
              match E.utf8 nonceBytes with
              | none => .error (.attestationVerificationFailed "Invalid nonce encoding")
              | some nonceStr =>
                if nonceStr ≠ expected_nonce then
                  .error (.attestationVerificationFailed "Nonce mismatch")
                else
                  match verify_certificate_chain E allowDebug doc with
                  | .error e => .error e
                  | .ok _ =>
                    match verify_signature E allowDebug prot payload sig doc with
                    | .error e => .error e
                    | .ok _ =>
                      match expectedPcrs with
                      | some exp =>
                        match verify_pcrs doc exp with
                        | .error e => .error e
                        | .ok _ => .ok doc
                      | none => .ok doc

/-- The field-extraction loop of `parse_mock_attestation` (client.rs
lines 239-257): collect `public_key` and `nonce` when present as byte
strings (any other value type yields `None`); non-text keys and unknown
keys are silently skipped. -/
def mockExtractFields : List (CborValue × CborValue) →
    Option (List Nat) × Option (List Nat) → Option (List Nat) × Option (List Nat)
  | [], acc => acc
  | (k, v) :: rest, (pk, nn) =>
    match k with
    | .text s =>
      if s = "public_key" then
        mockExtractFields rest ((match v with | .bytes b => some b | _ => none), nn)
      else if s = "nonce" then
        mockExtractFields rest (pk, (match v with | .bytes b => some b | _ => none))
      else mockExtractFields rest (pk, nn)
    | _ => mockExtractFields rest (pk, nn)

/-- `OpenSecretClient::parse_mock_attestation` (client.rs lines 199-271):
decode the envelope leniently and return a minimal document carrying only
the extracted `public_key` and `nonce`.  No nonce comparison happens here. -/
def parse_mock_attestation (E : ExtEnv) (document_b64 : String) :
    Except Err AttestationDocument :=
  match E.b64decode document_b64 with
  | none => .error .base64Decode
  | some bs =>
    match E.cborDecode bs with
    | none => .error .cbor
    | some v =>
      match v with
      | .array arr =>
        if arr.length = 4 then
          match arr.getD 2 .null with
          | .bytes payload =>
            match E.cborDecode payload with
            | none => .error .cbor
            | some docCbor =>
              match docCbor with
              | .map m =>
                let fields := mockExtractFields m (none, none)
                .ok { module_id := "mock-module"
                      timestamp := 0
                      digest := "SHA384"
                      pcrs := []
                      certificate := []
                      cabundle := []
                      public_key := fields.1
                      user_data := none
                      nonce := fields.2 }
              | _ => .error (.attestationVerificationFailed
                  "Invalid attestation document format")
          | _ => .error (.attestationVerificationFailed "Invalid payload")
        else .error (.attestationVerificationFailed "Invalid COSE_Sign1 structure")
      | _ => .error (.attestationVerificationFailed "Invalid COSE_Sign1 structure")

/-- Model of `SessionState` (types.rs): the session id is the abstract
value produced by `Uuid::parse_str`. -/
structure SessionState where
  session_id : Nat
  session_key : List Nat
deriving DecidableEq

/-- Model of `TokenPair` (types.rs). -/
structure TokenPair where
  access_token : String
  refresh_token : Option String
deriving DecidableEq

/-- Model of `KeyExchangeResponse` (types.rs). -/
structure KeyExchangeResponse where
  encrypted_session_key : String
  session_id : String
deriving DecidableEq

/-- The mutable client state behind `OpenSecretClient`: the
the two cells of `SessionManager` plus the `server_public_key` cell. -/
structure ClientState where
  session : Option SessionState
  tokens : Option TokenPair
  serverPublicKey : Option (List Nat)
deriving DecidableEq

/-- `encrypt_data` (crypto.rs lines 66-83).  The fresh random 12-byte nonce
drawn by `generate_random_bytes::<12>()` is passed explicitly. -/
def encrypt_data (E : ExtEnv) (key nonce plaintext : List Nat) :
    Except Err (List Nat) :=
  if key.length ≠ 32 then .error (.crypto "Failed to create cipher")
  else
    match E.aeadEncrypt key nonce plaintext with
    | none => .error (.encryption "Encryption failed")
    | some ciphertext => .ok (nonce ++ ciphertext)

/-- `decrypt_data` (crypto.rs lines 86-100): reject inputs shorter than 12
bytes, split nonce and ciphertext at 12, AEAD-decrypt. -/
def decrypt_data (E : ExtEnv) (key encrypted : List Nat) :
    Except Err (List Nat) :=
  if encrypted.length < 12 then .error (.decryption "Encrypted data too short")
  else
    let nonce := encrypted.take 12
    let ciphertext := encrypted.drop 12
    if key.length ≠ 32 then .error (.crypto "Failed to create cipher")
    else
      match E.aeadDecrypt key nonce ciphertext with
      | none => .error (.decryption "Decryption failed")
      | some plaintext => .ok plaintext

/-- `decrypt_session_key` (crypto.rs lines 103-129): base64 decode, length
check, split, AEAD-decrypt, and require the plaintext be exactly 32 bytes. -/
def decrypt_session_key (E : ExtEnv) (sharedSecret : List Nat)
    (encrypted_data : String) : Except Err (List Nat) :=
  match E.b64decode encrypted_data with
  | none => .error .base64Decode
  | some encrypted =>
    if encrypted.length < 12 then
      .error (.decryption "Encrypted session key too short")
    else
      let nonce := encrypted.take 12
      let ciphertext := encrypted.drop 12
      if sharedSecret.length ≠ 32 then .error (.crypto "Failed to create cipher")
      else
        match E.aeadDecrypt sharedSecret nonce ciphertext with
        | none => .error (.decryption "Failed to decrypt session key")
        | some sessionKey =>
          if sessionKey.length ≠ 32 then
            .error (.decryption "Invalid session key length")
          else .ok sessionKey

/-- The part of the `perform_key_exchange` pipeline after the Authorization
header is built (client.rs lines 140-188): transport response check, server
key lookup and length check, Diffie-Hellman, session-key decryption and
session-id parsing. -/
def key_exchange_after_headers (E : ExtEnv) (secret : List Nat)
    (kexResp : Except (Nat × String) KeyExchangeResponse)
    (serverPk : Option (List Nat)) : Except Err (Nat × List Nat) :=
  match kexResp with
  | .error (status, msg) => .error (.api status msg)
  | .ok resp =>
    match serverPk with
    | none => .error (.keyExchange "Server public key not available")
    | some spk =>
      if spk.length ≠ 32 then
        .error (.keyExchange "Invalid server public key length")
      else
        let sharedSecret := E.dh secret spk
        match decrypt_session_key E sharedSecret resp.encrypted_session_key with
        | .error e => .error e
        | .ok sessionKey =>
          match E.parseUuid resp.session_id with
          | none => .error (.session "Invalid session ID format")
          | some sid => .ok (sid, sessionKey)

/-- The pure pipeline of `OpenSecretClient::perform_key_exchange`
(client.rs lines 115-193) up to but excluding the final `set_session`
write.  First step (client.rs lines 132-138): a bearer header is sent only
when a JWT access token is held, and an invalid header value is an
authentication error.  The network response is an input (`kexResp`), as is
the generated ephemeral secret. -/
def key_exchange_result (E : ExtEnv) (secret : List Nat)
    (kexResp : Except (Nat × String) KeyExchangeResponse)
    (tokens : Option TokenPair) (serverPk : Option (List Nat)) :
    Except Err (Nat × List Nat) :=
  match tokens with
  | some t =>
    if E.tokenHeaderOk t.access_token then
      key_exchange_after_headers E secret kexResp serverPk
    else .error (.authentication "Invalid token format")
  | none => key_exchange_after_headers E secret kexResp serverPk

/-- `OpenSecretClient::perform_key_exchange` (client.rs lines 115-193)
as a state transformer: the single store write (`set_session`,
session.rs lines 19-29) happens only when the whole pipeline succeeded. -/
def perform_key_exchange (E : ExtEnv) (secret : List Nat)
    (kexResp : Except (Nat × String) KeyExchangeResponse)
    (st : ClientState) : Except Err Unit × ClientState :=
  match key_exchange_result E secret kexResp st.tokens st.serverPublicKey with
  | .error e => (.error e, st)
  | .ok (sid, sessionKey) =>
    (.ok (), { st with session := some { session_id := sid, session_key := sessionKey } })

/-- The attestation stage of `perform_attestation_handshake` (client.rs
lines 70-87): run the full verifier or, in mock mode, the lenient mock
parser, then require a `public_key` in the resulting document. -/
def handshakeAttestationStage (E : ExtEnv) (allowDebug useMock : Bool)
    (nonce document_b64 : String) : Except Err (List Nat) :=
  let docE :=
    if !useMock then verify_attestation_document E allowDebug none document_b64 nonce
    else parse_mock_attestation E document_b64
  match docE with
  | .error e => .error e
  | .ok doc =>
    match doc.public_key with
    | some pk => .ok pk
    | none => .error (.attestationVerificationFailed
        "No public key in attestation document")

/-- `OpenSecretClient::perform_attestation_handshake` (client.rs
lines 62-93): attestation fetch (response given as input `attResp`),
verification or mock parse, `server_public_key` store, then the key
exchange.  The fresh nonce and the ephemeral secret are inputs. -/
def perform_attestation_handshake (E : ExtEnv) (allowDebug useMock : Bool)
    (nonce : String) (attResp : Except (Nat × String) String)
    (kexResp : Except (Nat × String) KeyExchangeResponse)
    (secret : List Nat) (st : ClientState) : Except Err Unit × ClientState :=
  match attResp with
  | .error (status, msg) => (.error (.api status msg), st)
  | .ok docB64 =>
    match handshakeAttestationStage E allowDebug useMock nonce docB64 with
    | .error e => (.error e, st)
    | .ok pk =>
      perform_key_exchange E secret kexResp { st with serverPublicKey := some pk }

/-- `true` exactly on `Except.ok` results. -/
def isOkE : Except Err α → Bool
  | .ok _ => true
  | .error _ => false

/-- `true` exactly on `Error::KeyExchange` results. -/
def isKeyExchangeErr : Except Err α → Bool
  | .error (.keyExchange _) => true
  | _ => false

/-- The nine key names `parse_attestation_document` recognizes. -/
def recognizedKeys : List String :=
  ["module_id", "timestamp", "digest", "pcrs", "certificate", "cabundle",
   "public_key", "user_data", "nonce"]

/-- A well-formed SubjectPublicKeyInfo-style byte string: BIT STRING tag,
length byte, zero unused bits, then a 97-byte uncompressed point. -/
def spki97 : List Nat := 3 :: 98 :: 0 :: 4 :: List.replicate 96 0

/-- The 90-byte input for the C7 counterexample: no `0x03` byte anywhere,
but byte 23 is `0x04` and the trailing window does not start with `0x04`. -/
def b7 : List Nat := List.replicate 23 1 ++ 4 :: List.replicate 64 5 ++ [6, 6]

/-- The payload document map delivered by `Ew`. -/
def mapW : List (CborValue × CborValue) :=
  [((CborValue.text "public_key"), CborValue.bytes [7]),
   ((CborValue.text "nonce"), CborValue.bytes [78, 50])]

/-- The document that the payload delivered by `Ew` parses to. -/
def docW : AttestationDocument :=
  { emptyAttestationDocument with public_key := some [7], nonce := some [78, 50] }

/-- A concrete environment in which the AEAD decrypts the delivered session
key to 16 bytes. -/
def Ec6 : ExtEnv :=
  { b64decode := fun _ => some (List.replicate 12 0 ++ [9])
    cborDecode := fun _ => none
    utf8 := fun _ => none
    parseX509 := fun _ => none
    ecdsaVerify := fun _ _ _ _ => false
    ecdsaVerifyFixed := fun _ _ _ => false
    cborEncodeSig := fun _ _ => none
    aeadEncrypt := fun _ _ _ => none
    aeadDecrypt := fun _ _ _ => some (List.replicate 16 7)
    dh := fun _ _ => List.replicate 32 0
    parseUuid := fun _ => none
    tokenHeaderOk := fun _ => false
    rootCert := [] }

/-- A client state holding a 32-byte server public key and no tokens. -/
def stC6 : ClientState :=
  { session := none, tokens := none, serverPublicKey := some (List.replicate 32 5) }

/-- A concrete key-exchange response. -/
def respC6 : KeyExchangeResponse :=
  { encrypted_session_key := "enc", session_id := "sid" }

/-- A concrete environment whose decoders yield an envelope whose payload
document carries `public_key` bytes `[7]` and a nonce that UTF-8-decodes to
the string "N2". -/
def Ew : ExtEnv :=
  { b64decode := fun _ => some [0]
    cborDecode := fun bs =>
      if bs = [0] then
        some (.array [.bytes [], .null, .bytes [1], .bytes []])
      else if bs = [1] then
        some (.map [((CborValue.text "public_key"), CborValue.bytes [7]),
                    ((CborValue.text "nonce"), CborValue.bytes [78, 50])])
      else none
    utf8 := fun l => if l = [78, 50] then some "N2" else none
    parseX509 := fun _ => none
    ecdsaVerify := fun _ _ _ _ => false
    ecdsaVerifyFixed := fun _ _ _ => false
    cborEncodeSig := fun _ _ => none
    aeadEncrypt := fun _ _ _ => none
    aeadDecrypt := fun _ _ _ => none
    dh := fun _ _ => []
    parseUuid := fun _ => none
    tokenHeaderOk := fun _ => false
    rootCert := [] }

/-- A client state with an existing session, used to observe preservation. -/
def stW : ClientState :=
  { session := some { session_id := 3, session_key := List.replicate 32 2 }
    tokens := none
    serverPublicKey := none }

/-- A root certificate for the concrete chain: self-issued name `[10]`. -/
def rootCertX : Cert :=
  { issuer := [10], subject := [10], validityOk := true,
    sigOid := "1.2.840.10045.4.3.3", pubkeyRaw := spki97,
    tbs := [2], sigValue := [3] }

/-- An intermediate certificate issued by `[10]` with subject `[11]`. -/
def midCertX : Cert :=
  { issuer := [10], subject := [11], validityOk := true,
    sigOid := "1.2.840.10045.4.3.3", pubkeyRaw := spki97,
    tbs := [4], sigValue := [5] }

/-- A leaf certificate issued by `[11]`. -/
def leafCertX : Cert :=
  { issuer := [11], subject := [12], validityOk := true,
    sigOid := "1.2.840.10045.4.3.3", pubkeyRaw := spki97,
    tbs := [6], sigValue := [7] }

/-- A concrete environment in which the two-certificate bundle
`[[0], [1]]` and the leaf `[2]` form a valid chain rooted at the pinned
root `[0]`. -/
def Echain : ExtEnv :=
  { b64decode := fun _ => none
    cborDecode := fun _ => none
    utf8 := fun _ => none
    parseX509 := fun der =>
      if der = [0] then some rootCertX
      else if der = [1] then some midCertX
      else if der = [2] then some leafCertX
      else none
    ecdsaVerify := fun _ _ _ _ => true
    ecdsaVerifyFixed := fun _ _ _ => true
    cborEncodeSig := fun _ _ => none
    aeadEncrypt := fun _ _ _ => none
    aeadDecrypt := fun _ _ _ => none
    dh := fun _ _ => []
    parseUuid := fun _ => none
    tokenHeaderOk := fun _ => false
    rootCert := [0] }

/-- The document carrying the concrete valid chain. -/
def docChain : AttestationDocument :=
  { emptyAttestationDocument with certificate := [2], cabundle := [[0], [1]] }

/-- An unrecognized key leaves the document unchanged. -/
theorem updateDocField_unknown (doc : AttestationDocument) (s : String)
    (v : CborValue) (h : s ∉ recognizedKeys) : updateDocField doc s v = .ok doc := by
  simp only [recognizedKeys, List.mem_cons, List.mem_singleton, not_or] at h
  obtain ⟨h1, h2, h3, h4, h5, h6, h7, h8, h9⟩ := h
  simp [updateDocField, h1, h2, h3, h4, h5, h6, h7, h8, h9]

/-- `parseDocEntries` over entries with only unrecognized text keys is the
identity. -/
theorem parseDocEntries_unknown (m : List (CborValue × CborValue))
    (hm : ∀ p ∈ m, ∃ s, p.1 = CborValue.text s ∧ s ∉ recognizedKeys) :
    ∀ doc, parseDocEntries m doc = .ok doc := by
  induction m with
  | nil => intro doc; rfl
  | cons p rest ih =>
    intro doc
    obtain ⟨s, hs, hnot⟩ := hm p (List.mem_cons_self p rest)
    obtain ⟨k, v⟩ := p
    simp only at hs
    subst hs
    simp only [parseDocEntries, updateDocField_unknown doc s v hnot]
    exact ih (fun q hq => hm q (List.mem_cons_of_mem _ hq)) doc

/-- C10, corrected: the payload decoder does not enforce presence of any
recognized key: a CBOR map with text keys none of which is recognized (in
particular the empty map) parses to the zero-initialised document.  (The
original claim quantified over maps that merely omit the six required keys;
a map carrying the optional key `public_key` with a byte-string value is a
counterexample, since the resulting document then has that field set.) -/
theorem parse_attestation_document_defaults (m : List (CborValue × CborValue))
    (hm : ∀ p ∈ m, ∃ s, p.1 = CborValue.text s ∧ s ∉ recognizedKeys) :
    parse_attestation_document (.map m) = .ok emptyAttestationDocument :=
  parseDocEntries_unknown m hm emptyAttestationDocument

/-- C10 witness: a concrete one-entry map with an unknown key parses to the
default document. -/
theorem parse_attestation_document_defaults_witness :
    (∀ p ∈ [((CborValue.text "frobnicate"), CborValue.int 5)],
      ∃ s, p.1 = CborValue.text s ∧ s ∉ recognizedKeys) ∧
    parse_attestation_document (.map [((CborValue.text "frobnicate"), CborValue.int 5)]) =
      .ok emptyAttestationDocument := by
  refine ⟨?_, parse_attestation_document_defaults _ ?_⟩ <;>
  · intro p hp
    simp only [List.mem_singleton] at hp
    subst hp
    exact ⟨"frobnicate", rfl, by decide⟩

/-- C10 counterexample: a map that omits all six required keys but carries
`public_key` as a byte string parses successfully to a document whose
`public_key` field is set, not absent. -/
theorem parse_attestation_document_optional_present :
    parse_attestation_document (.map [((CborValue.text "public_key"), CborValue.bytes [1])]) =
      .ok { emptyAttestationDocument with public_key := some [1] } ∧
    (some [1] : Option (List Nat)) ≠ none := ⟨rfl, by decide⟩

/-- C4, corrected: a present optional key (`public_key`, `user_data` or
`nonce`) whose value is not a byte string is silently treated as absent —
the field is set to `none` and decoding succeeds.  (The original claim said
such a key makes decoding return an error.) -/
theorem updateDocField_optional_type_mismatch (doc : AttestationDocument)
    (v : CborValue) (h : v.isBytes = false) :
    updateDocField doc "public_key" v = .ok { doc with public_key := none } ∧
    updateDocField doc "user_data" v = .ok { doc with user_data := none } ∧
    updateDocField doc "nonce" v = .ok { doc with nonce := none } := by
  cases v <;> first
    | exact ⟨rfl, rfl, rfl⟩
    | simp [CborValue.isBytes] at h

/-- C4 witness: the theorem applied to the integer value 5. -/
theorem updateDocField_optional_type_mismatch_witness :
    (CborValue.int 5).isBytes = false ∧
    updateDocField emptyAttestationDocument "nonce" (CborValue.int 5) =
      .ok { emptyAttestationDocument with nonce := none } :=
  ⟨rfl, (updateDocField_optional_type_mismatch emptyAttestationDocument
    (CborValue.int 5) rfl).2.2⟩

/-- C4 counterexample: a document map whose `nonce` key is present with an
integer value decodes successfully (with the field absent), rather than
returning an error. -/
theorem parse_attestation_document_nonce_type_mismatch_ok :
    parse_attestation_document (.map [((CborValue.text "nonce"), CborValue.int 5)]) =
      .ok emptyAttestationDocument ∧
    isOkE (parse_attestation_document
      (.map [((CborValue.text "nonce"), CborValue.int 5)])) = true := ⟨rfl, rfl⟩

/-- C8, corrected: the envelope decoder succeeds exactly when the outer
value is a 4-element array whose elements 0, 2 and 3 are byte strings;
element 1 (the unprotected header) is never type-checked and may be any
CBOR value.  (The original claim additionally required element 1 to be a
map.) -/
theorem decodeCoseEnvelope_ok_iff (v : CborValue) :
    isOkE (decodeCoseEnvelope v) = true ↔
    ∃ p v1 pay s, v = .array [.bytes p, v1, .bytes pay, .bytes s] := by
  constructor
  · intro h
    unfold decodeCoseEnvelope at h
    repeat' split at h
    all_goals simp [isOkE] at h
    rename_i arr hlen _ prot hprot _ pay hpay _ sig hsig
    have h4 : arr.length = 4 := by omega
    rcases arr with _ | ⟨a, _ | ⟨b, _ | ⟨c, _ | ⟨d, _ | ⟨e, t⟩⟩⟩⟩⟩ <;>
      simp only [List.length_cons, List.length_nil] at h4 <;> try omega
    simp only [List.getD_cons_zero, List.getD_cons_succ] at hprot hpay hsig
    exact ⟨prot, b, pay, sig, by rw [hprot, hpay, hsig]⟩
  · rintro ⟨p, v1, pay, s, rfl⟩
    rfl

/-- C8 witness: the theorem applied to a concrete well-shaped envelope. -/
theorem decodeCoseEnvelope_ok_iff_witness :
    isOkE (decodeCoseEnvelope (.array [.bytes [3], .null, .bytes [4], .bytes [5]])) = true :=
  (decodeCoseEnvelope_ok_iff _).mpr ⟨[3], .null, [4], [5], rfl⟩

/-- C8 counterexample: an envelope whose element 1 is an integer (not a
map) still decodes successfully, so a wrongly-typed element 1 is not a
decode error. -/
theorem decodeCoseEnvelope_unprotected_not_map :
    decodeCoseEnvelope (.array [.bytes [], .int 7, .bytes [1], .bytes [2]]) =
      .ok ([], [1], [2]) ∧
    (CborValue.int 7).isArray = false ∧ (CborValue.int 7).isBytes = false := ⟨rfl, rfl, rfl⟩

/-- C9: envelope-codec round trip and short-input rejection.  The AEAD
cipher itself is the external chacha20poly1305 crate, taken at its
interface contract `hinv` (decrypting an honestly produced ciphertext under
the same key and nonce returns the plaintext).  `seal` always draws a
12-byte random nonce (`generate_random_bytes::<12>()`), passed here
explicitly as `nonce`; `open` on any input shorter than 12 bytes fails with
the opaque decryption error and never returns plaintext. -/
theorem encrypt_decrypt_roundtrip (E : ExtEnv) (key nonce pt sealed : List Nat)
    (hinv : ∀ k n p c, E.aeadEncrypt k n p = some c → E.aeadDecrypt k n c = some p)
    (hnonce : nonce.length = 12) :
    (encrypt_data E key nonce pt = .ok sealed → decrypt_data E key sealed = .ok pt) ∧
    (∀ data : List Nat, data.length < 12 →
      decrypt_data E key data = .error (.decryption "Encrypted data too short")) := by
  constructor
  · intro henc
    unfold encrypt_data at henc
    split at henc
    · exact absurd henc (by simp)
    · rename_i hkey
      cases hct : E.aeadEncrypt key nonce pt with
      | none => rw [hct] at henc; exact absurd henc (by simp)
      | some ct =>
        rw [hct] at henc
        simp only [Except.ok.injEq] at henc
        subst henc
        unfold decrypt_data
        have hlen : (nonce ++ ct).length = 12 + ct.length := by
          simp [hnonce]
        rw [if_neg (by omega)]
        have htake : (nonce ++ ct).take 12 = nonce := by
          rw [← hnonce]; exact List.take_left nonce ct
        have hdrop : (nonce ++ ct).drop 12 = ct := by
          rw [← hnonce]; exact List.drop_left nonce ct
        rw [htake, hdrop, if_neg hkey, hinv key nonce pt ct hct]
  · intro data hshort
    unfold decrypt_data
    rw [if_pos hshort]

/-- C9 witness: the theorem applied to a trivial AEAD instance satisfying
the contract, a 32-byte key, a 12-byte nonce and a concrete plaintext. -/
theorem encrypt_decrypt_roundtrip_witness :
    (List.replicate 32 0 : List Nat).length = 32 ∧
    (List.replicate 12 1 : List Nat).length = 12 ∧
    decrypt_data
      { b64decode := fun _ => none, cborDecode := fun _ => none, utf8 := fun _ => none,
        parseX509 := fun _ => none, ecdsaVerify := fun _ _ _ _ => false,
        ecdsaVerifyFixed := fun _ _ _ => false, cborEncodeSig := fun _ _ => none,
        aeadEncrypt := fun _ _ p => some p, aeadDecrypt := fun _ _ c => some c,
        dh := fun _ _ => [], parseUuid := fun _ => none,
        tokenHeaderOk := fun _ => false, rootCert := [] }
      (List.replicate 32 0) (List.replicate 12 1 ++ [5, 6]) = .ok [5, 6] ∧
    decrypt_data
      { b64decode := fun _ => none, cborDecode := fun _ => none, utf8 := fun _ => none,
        parseX509 := fun _ => none, ecdsaVerify := fun _ _ _ _ => false,
        ecdsaVerifyFixed := fun _ _ _ => false, cborEncodeSig := fun _ _ => none,
        aeadEncrypt := fun _ _ p => some p, aeadDecrypt := fun _ _ c => some c,
        dh := fun _ _ => [], parseUuid := fun _ => none,
        tokenHeaderOk := fun _ => false, rootCert := [] }
      (List.replicate 32 0) [9] = .error (.decryption "Encrypted data too short") := by
  refine ⟨rfl, rfl, ?_, ?_⟩
  · exact (encrypt_decrypt_roundtrip _ (List.replicate 32 0) (List.replicate 12 1) [5, 6]
      (List.replicate 12 1 ++ [5, 6])
      (fun k n p c h => by injection h with h2; rw [← h2]) rfl).1 rfl
  · exact (encrypt_decrypt_roundtrip _ (List.replicate 32 0) (List.replicate 12 1) [5, 6]
      (List.replicate 12 1 ++ [5, 6])
      (fun k n p c h => by injection h with h2; rw [← h2]) rfl).2 [9] (by decide)

/-- Helper: `decrypt_session_key` reaches the length check and fails with
the `Decryption` variant when the decrypted plaintext is not 32 bytes. -/
theorem decrypt_session_key_bad_length (E : ExtEnv) (ss : List Nat) (enc : String)
    (data k : List Nat) (hb64 : E.b64decode enc = some data)
    (hd : ¬ data.length < 12) (hss : ss.length = 32)
    (hdec : E.aeadDecrypt ss (data.take 12) (data.drop 12) = some k)
    (hk : k.length ≠ 32) :
    decrypt_session_key E ss enc = .error (.decryption "Invalid session key length") := by
  unfold decrypt_session_key
  rw [hb64]
  simp only [if_neg hd]
  rw [if_neg (by omega), hdec]
  exact if_pos hk

/-- Helper: a successful `decrypt_session_key` always returns exactly 32
bytes. -/
theorem decrypt_session_key_ok_length (E : ExtEnv) (ss : List Nat) (enc : String)
    (k : List Nat) (h : decrypt_session_key E ss enc = .ok k) : k.length = 32 := by
  unfold decrypt_session_key at h
  cases hb : E.b64decode enc with
  | none => simp only [hb] at h; cases h
  | some data =>
    simp only [hb] at h
    split at h
    · cases h
    · split at h
      · cases h
      · cases hd : E.aeadDecrypt ss (data.take 12) (data.drop 12) with
        | none => simp only [hd] at h; cases h
        | some sk =>
          simp only [hd] at h
          split at h
          · cases h
          · cases h
            rename_i hsk
            omega

/-- C6, corrected: when the decrypted session-key plaintext has any length
other than 32 bytes, `perform_key_exchange` fails — with the `Decryption`
error variant ("Invalid session key length"), not the `KeyExchange`
variant the claim names — the key is neither truncated nor padded, and the
session store is left exactly as it was. -/
theorem perform_key_exchange_bad_session_key_length (E : ExtEnv)
    (secret : List Nat) (resp : KeyExchangeResponse) (st : ClientState)
    (spk data k : List Nat)
    (htok : ∀ t ∈ st.tokens, E.tokenHeaderOk t.access_token = true)
    (hspk : st.serverPublicKey = some spk) (hlen : spk.length = 32)
    (hb64 : E.b64decode resp.encrypted_session_key = some data)
    (hdata : ¬ data.length < 12)
    (hshared : (E.dh secret spk).length = 32)
    (hdec : E.aeadDecrypt (E.dh secret spk) (data.take 12) (data.drop 12) = some k)
    (hk : k.length ≠ 32) :
    perform_key_exchange E secret (.ok resp) st =
      (.error (.decryption "Invalid session key length"), st) := by
  have hkex : key_exchange_result E secret (.ok resp) st.tokens st.serverPublicKey =
      .error (.decryption "Invalid session key length") := by
    have hafter : key_exchange_after_headers E secret (.ok resp) st.serverPublicKey =
        .error (.decryption "Invalid session key length") := by
      unfold key_exchange_after_headers
      rw [hspk]
      simp only
      rw [if_neg (by omega),
        decrypt_session_key_bad_length E (E.dh secret spk)
          resp.encrypted_session_key data k hb64 hdata hshared hdec hk]
    unfold key_exchange_result
    rcases hst : st.tokens with _ | t
    · simp only [hst]
      exact hafter
    · have htt : E.tokenHeaderOk t.access_token = true :=
        htok t (Option.mem_def.mpr hst)
      simp only [hst, htt, if_true]
      exact hafter
  unfold perform_key_exchange
  rw [hkex]

/-- C6 counterexample: with a session key that decrypts to 16 bytes the
handshake fails with the `Decryption` error variant, not the `KeyExchange`
variant named by the claim (and the store is unchanged). -/
theorem perform_key_exchange_decryption_not_keyexchange :
    perform_key_exchange Ec6 [1] (.ok respC6) stC6 =
      (.error (.decryption "Invalid session key length"), stC6) ∧
    isKeyExchangeErr (perform_key_exchange Ec6 [1] (.ok respC6) stC6).1 = false :=
  ⟨rfl, rfl⟩

/-- C6 witness: the amended theorem applied to the concrete 16-byte
decryption environment. -/
theorem perform_key_exchange_bad_session_key_length_witness :
    (∀ t ∈ stC6.tokens, Ec6.tokenHeaderOk t.access_token = true) ∧
    stC6.serverPublicKey = some (List.replicate 32 5) ∧
    (List.replicate 32 5 : List Nat).length = 32 ∧
    Ec6.b64decode respC6.encrypted_session_key = some (List.replicate 12 0 ++ [9]) ∧
    ¬ (List.replicate 12 0 ++ [9] : List Nat).length < 12 ∧
    (Ec6.dh [1] (List.replicate 32 5)).length = 32 ∧
    Ec6.aeadDecrypt (Ec6.dh [1] (List.replicate 32 5))
      ((List.replicate 12 0 ++ [9]).take 12) ((List.replicate 12 0 ++ [9]).drop 12) =
      some (List.replicate 16 7) ∧
    (List.replicate 16 7 : List Nat).length ≠ 32 ∧
    perform_key_exchange Ec6 [1] (.ok respC6) stC6 =
      (.error (.decryption "Invalid session key length"), stC6) := by
  refine ⟨?_, rfl, rfl, rfl, by decide, rfl, rfl, by decide, ?_⟩
  · intro t ht
    simp [stC6] at ht
  · exact perform_key_exchange_bad_session_key_length Ec6 [1] respC6 stC6
      (List.replicate 32 5) (List.replicate 12 0 ++ [9]) (List.replicate 16 7)
      (fun t ht => by simp [stC6] at ht) rfl rfl rfl (by decide) rfl rfl (by decide)

/-- Helper: a successful key-exchange pipeline yields a 32-byte session
key (after the Authorization-header stage). -/
theorem key_exchange_after_headers_ok_length (E : ExtEnv) (secret : List Nat)
    (kexResp : Except (Nat × String) KeyExchangeResponse)
    (serverPk : Option (List Nat)) (sid : Nat) (key : List Nat)
    (h : key_exchange_after_headers E secret kexResp serverPk = .ok (sid, key)) :
    key.length = 32 := by
  unfold key_exchange_after_headers at h
  cases kexResp with
  | error p => obtain ⟨status, msg⟩ := p; cases h
  | ok resp =>
    cases hspk : serverPk with
    | none => simp only [hspk] at h; cases h
    | some spk =>
      simp only [hspk] at h
      split at h
      · cases h
      · cases hd : decrypt_session_key E (E.dh secret spk) resp.encrypted_session_key with
        | error e => simp only [hd] at h; cases h
        | ok sk =>
          simp only [hd] at h
          cases hu : E.parseUuid resp.session_id with
          | none => simp only [hu] at h; cases h
          | some sid2 =>
            simp only [hu] at h
            cases h
            exact decrypt_session_key_ok_length E _ _ _ hd

/-- Helper: a successful key-exchange pipeline yields a 32-byte session
key. -/
theorem key_exchange_result_ok_length (E : ExtEnv) (secret : List Nat)
    (kexResp : Except (Nat × String) KeyExchangeResponse)
    (tokens : Option TokenPair) (serverPk : Option (List Nat))
    (sid : Nat) (key : List Nat)
    (h : key_exchange_result E secret kexResp tokens serverPk = .ok (sid, key)) :
    key.length = 32 := by
  cases tokens with
  | none => exact key_exchange_after_headers_ok_length E secret kexResp serverPk sid key h
  | some t =>
    by_cases htt : E.tokenHeaderOk t.access_token = true
    · have heq : key_exchange_result E secret kexResp (some t) serverPk =
        key_exchange_after_headers E secret kexResp serverPk := if_pos htt
      rw [heq] at h
      exact key_exchange_after_headers_ok_length E secret kexResp serverPk sid key h
    · have heq : key_exchange_result E secret kexResp (some t) serverPk =
        .error (.authentication "Invalid token format") := if_neg htt
      rw [heq] at h
      cases h

/-- Helper: `perform_key_exchange` leaves the state untouched on failure
and, on success, only replaces the session cell with the validated
32-byte key. -/
theorem perform_key_exchange_state (E : ExtEnv) (secret : List Nat)
    (kexResp : Except (Nat × String) KeyExchangeResponse) (st : ClientState) :
    (∀ e st2, perform_key_exchange E secret kexResp st = (.error e, st2) → st2 = st) ∧
    (∀ st2, perform_key_exchange E secret kexResp st = (.ok (), st2) →
      ∃ sid key, key.length = 32 ∧
        st2 = { st with session := some { session_id := sid, session_key := key } }) := by
  unfold perform_key_exchange
  cases hk : key_exchange_result E secret kexResp st.tokens st.serverPublicKey with
  | error e =>
    constructor
    · intro e2 st2 h; cases h; rfl
    · intro st2 h; simp at h
  | ok p =>
    obtain ⟨sid, key⟩ := p
    constructor
    · intro e st2 h; simp at h
    · intro st2 h
      have hl := key_exchange_result_ok_length E secret kexResp st.tokens
        st.serverPublicKey sid key hk
      cases h
      exact ⟨sid, key, hl, rfl⟩

/-- C5: every failing run of the handshake leaves the prior session (and
tokens) of the session store exactly as they were, and a successful run writes a
session holding the fully decrypted and validated 32-byte key. -/
theorem handshake_failure_preserves_session (E : ExtEnv)
    (allowDebug useMock : Bool) (nonce : String)
    (attResp : Except (Nat × String) String)
    (kexResp : Except (Nat × String) KeyExchangeResponse)
    (secret : List Nat) (st : ClientState) :
    (∀ e st2, perform_attestation_handshake E allowDebug useMock nonce attResp
        kexResp secret st = (.error e, st2) →
      st2.session = st.session ∧ st2.tokens = st.tokens) ∧
    (∀ st2, perform_attestation_handshake E allowDebug useMock nonce attResp
        kexResp secret st = (.ok (), st2) →
      st2.tokens = st.tokens ∧ ∃ sid key, key.length = 32 ∧
        st2.session = some { session_id := sid, session_key := key }) := by
  unfold perform_attestation_handshake
  cases attResp with
  | error p =>
    obtain ⟨status, msg⟩ := p
    constructor
    · intro e st2 h; cases h; exact ⟨rfl, rfl⟩
    · intro st2 h; simp at h
  | ok docB64 =>
    cases hs : handshakeAttestationStage E allowDebug useMock nonce docB64 with
    | error e =>
      simp only [hs]
      constructor
      · intro e2 st2 h; cases h; exact ⟨rfl, rfl⟩
      · intro st2 h; simp at h
    | ok pk =>
      simp only [hs]
      have hp := perform_key_exchange_state E secret kexResp
        { st with serverPublicKey := some pk }
      constructor
      · intro e st2 h
        have h2 := hp.1 e st2 h
        rw [h2]
        exact ⟨rfl, rfl⟩
      · intro st2 h
        obtain ⟨sid, key, hl, hst2⟩ := hp.2 st2 h
        rw [hst2]
        exact ⟨rfl, sid, key, hl, rfl⟩

/-- C5 witness: a run that passes the (mock) attestation stage, stores the
server public key, then fails in the key-exchange transport; the theorem
yields that the prior session and tokens survive unchanged. -/
theorem handshake_failure_preserves_session_witness :
    perform_attestation_handshake Ew true true "N1" (.ok "doc")
        (.error (401, "no")) [0] stW =
      (.error (.api 401 "no"), { stW with serverPublicKey := some [7] }) ∧
    ({ stW with serverPublicKey := some [7] } : ClientState).session = stW.session ∧
    ({ stW with serverPublicKey := some [7] } : ClientState).tokens = stW.tokens :=
  ⟨rfl, (handshake_failure_preserves_session Ew true true "N1" (.ok "doc")
    (.error (401, "no")) [0] stW).1 (.api 401 "no")
    { stW with serverPublicKey := some [7] } rfl⟩

/-- C1 counterexample: in the mock-attestation mode of the client the handshake
attestation stage performs no nonce comparison at all — a document whose
nonce decodes to "N2" passes the stage although the caller requested
nonce "N1". -/
theorem mock_handshake_skips_nonce_check :
    handshakeAttestationStage Ew true true "N1" "doc" = .ok [7] ∧
    parse_mock_attestation Ew "doc" =
      .ok { module_id := "mock-module", timestamp := 0, digest := "SHA384",
            pcrs := [], certificate := [], cabundle := [],
            public_key := some [7], user_data := none, nonce := some [78, 50] } ∧
    Ew.utf8 [78, 50] = some "N2" ∧ ("N2" : String) ≠ "N1" :=
  ⟨rfl, rfl, rfl, by decide⟩

/-- C1, corrected: in the verifier (`verify_attestation_document`) the nonce
check is a hard failure independent of the debug/mock flag — for any
`allowDebug`, a decoded document whose nonce is absent or does not
UTF-8-decode to the caller-supplied nonce makes verification fail.  (The
separate mock handshake path of the client skips this check entirely; see the
counterexample.) -/
theorem verifier_nonce_check_hard (E : ExtEnv) (allowDebug : Bool)
    (expectedPcrs : Option (List (Nat × List Nat)))
    (document_b64 expected_nonce : String) (bs : List Nat) (cbor : CborValue)
    (prot payload sig : List Nat) (docCbor : CborValue) (doc : AttestationDocument)
    (h1 : E.b64decode document_b64 = some bs)
    (h2 : E.cborDecode bs = some cbor)
    (h3 : decodeCoseEnvelope cbor = .ok (prot, payload, sig))
    (h4 : E.cborDecode payload = some docCbor)
    (h5 : parse_attestation_document docCbor = .ok doc)
    (h6 : doc.nonce = none ∨ ∃ nb, doc.nonce = some nb ∧ E.utf8 nb ≠ some expected_nonce) :
    ∃ msg, verify_attestation_document E allowDebug expectedPcrs document_b64
      expected_nonce = .error (.attestationVerificationFailed msg) := by
  unfold verify_attestation_document
  simp only [h1, h2, h3, h4, h5]
  rcases h6 with hn | ⟨nb, hnb, hne⟩
  · simp only [hn]
    exact ⟨_, rfl⟩
  · simp only [hnb]
    cases hu : E.utf8 nb with
    | none => exact ⟨_, rfl⟩
    | some s =>
      simp only [hu]
      have hsne : s ≠ expected_nonce := fun heq => hne (heq ▸ hu)
      exact ⟨"Nonce mismatch", if_pos hsne⟩

/-- C1 witness: the theorem applied to the concrete environment `Ew`, in
debug mode, with caller nonce "N1" and document nonce "N2". -/
theorem verifier_nonce_check_hard_witness :
    Ew.b64decode "doc" = some [0] ∧
    Ew.cborDecode [0] = some (.array [.bytes [], .null, .bytes [1], .bytes []]) ∧
    decodeCoseEnvelope (.array [.bytes [], .null, .bytes [1], .bytes []]) =
      .ok ([], [1], []) ∧
    Ew.cborDecode [1] = some (.map mapW) ∧
    parse_attestation_document (.map mapW) = .ok docW ∧
    (docW.nonce = none ∨ ∃ nb, docW.nonce = some nb ∧ Ew.utf8 nb ≠ some "N1") ∧
    ∃ msg, verify_attestation_document Ew true none "doc" "N1" =
      .error (.attestationVerificationFailed msg) := by
  refine ⟨rfl, rfl, rfl, rfl, rfl, Or.inr ⟨[78, 50], rfl, by decide⟩, ?_⟩
  exact verifier_nonce_check_hard Ew true none "doc" "N1" [0]
    (.array [.bytes [], .null, .bytes [1], .bytes []]) [] [1] []
    (.map mapW) docW rfl rfl rfl rfl rfl (Or.inr ⟨[78, 50], rfl, by decide⟩)

/-- Helper: every successful offset probe returns the window at that
offset, fitting inside the input and starting with `0x04`. -/
theorem ecOffsetTry_some (b : List Nat) (expected off : Nat) (r : List Nat)
    (h : ecOffsetTry b expected off = some r) :
    off + expected ≤ b.length ∧ r = (b.drop off).take expected ∧ r.headD 0 = 4 := by
  by_cases h1 : off + expected ≤ b.length
  · by_cases h2 : ((b.drop off).take expected).headD 0 = 4
    · have heq : ecOffsetTry b expected off = some ((b.drop off).take expected) := by
        unfold ecOffsetTry
        rw [if_pos h1]
        exact if_pos h2
      rw [heq] at h
      cases h
      exact ⟨h1, rfl, h2⟩
    · have heq : ecOffsetTry b expected off = none := by
        unfold ecOffsetTry
        rw [if_pos h1]
        exact if_neg h2
      rw [heq] at h
      cases h
  · have heq : ecOffsetTry b expected off = none := by
      unfold ecOffsetTry
      exact if_neg h1
    rw [heq] at h
    cases h

/-- Helper: indexing with a default is the head of the dropped suffix. -/
theorem getD_eq_headD_drop (l : List Nat) (n : Nat) :
    l.getD n 0 = (l.drop n).headD 0 := by
  induction l generalizing n with
  | nil => simp
  | cons a t ih =>
    cases n with
    | zero => simp
    | succ m => simp only [List.getD_cons_succ, List.drop_succ_cons]; exact ih m

/-- C7, corrected: `extract_ec_point` first scans for a BIT-STRING-like tag
pattern, but on failure falls back to guessing — the trailing
`expected`-byte window, then the fixed offsets 23-27 — so it can return a
point without any structural identification (see the counterexample).
What every successful result does satisfy: it has exactly the expected
length, begins with the uncompressed-point marker `0x04`, and is a
contiguous window of the input. -/
theorem extract_ec_point_shape (b : List Nat) (expected : Nat) (r : List Nat)
    (h : extract_ec_point b expected = .ok r) :
    r.length = expected ∧ r.headD 0 = 4 ∧ ∃ i, r = (b.drop i).take expected := by
  unfold extract_ec_point at h
  cases hscan : (List.range b.length).findSome? (ecScanAt b expected) with
  | some r2 =>
    simp only [hscan] at h
    cases h
    obtain ⟨i, _, he⟩ := List.exists_of_findSome?_eq_some hscan
    unfold ecScanAt at he
    split at he
    · rename_i hcond
      cases he
      obtain ⟨hg0, h2lt, h3lt, hg2, hg3, hlen⟩ := hcond
      refine ⟨hlen, ?_, i + 3, ?_⟩
      · rw [← getD_eq_headD_drop]
        exact hg3
      · rw [← hlen, List.take_length]
    · cases he
  | none =>
    simp only [hscan] at h
    cases hfb : ecFallback b expected with
    | none => simp only [hfb] at h; cases h
    | some r2 =>
      simp only [hfb] at h
      cases h
      by_cases hle : expected ≤ b.length
      · by_cases hhead : (b.drop (b.length - expected)).headD 0 = 4
        · have heq : ecFallback b expected = some (b.drop (b.length - expected)) := by
            unfold ecFallback
            rw [if_pos hle]
            exact if_pos hhead
          rw [heq] at hfb
          cases hfb
          have hlen : (b.drop (b.length - expected)).length = expected := by
            rw [List.length_drop]
            omega
          refine ⟨hlen, hhead, b.length - expected, ?_⟩
          exact (List.take_of_length_le (le_of_eq hlen)).symm
        · have heq : ecFallback b expected =
              [23, 24, 25, 26, 27].findSome? (ecOffsetTry b expected) := by
            unfold ecFallback
            rw [if_pos hle]
            exact if_neg hhead
          rw [heq] at hfb
          obtain ⟨off, _, he⟩ := List.exists_of_findSome?_eq_some hfb
          obtain ⟨hoffle, hr, hh⟩ := ecOffsetTry_some b expected off _ he
          refine ⟨?_, hh, off, hr⟩
          rw [hr, List.length_take, List.length_drop]
          omega
      · have heq : ecFallback b expected = none := by
          unfold ecFallback
          exact if_neg hle
        rw [heq] at hfb
        cases hfb

/-- C7 counterexample: on `b7` the structural tag scan finds nothing (the
input contains no `0x03` byte at all), yet `extract_ec_point` returns a
65-byte point taken from fixed offset 23 — a pure offset guess, not a
parse failure. -/
theorem extract_ec_point_offset_guess :
    extract_ec_point b7 65 = .ok (4 :: List.replicate 64 5) ∧
    (List.range b7.length).findSome? (ecScanAt b7 65) = none ∧
    3 ∉ b7 :=
  ⟨rfl, rfl, by decide⟩

/-- C7 witness: the shape theorem applied to a structurally identified
extraction. -/
theorem extract_ec_point_shape_witness :
    extract_ec_point spki97 97 = .ok (4 :: List.replicate 96 0) ∧
    ((4 :: List.replicate 96 0 : List Nat).length = 97 ∧
     (4 :: List.replicate 96 0 : List Nat).headD 0 = 4 ∧
     ∃ i, (4 :: List.replicate 96 0 : List Nat) = (spki97.drop i).take 97) :=
  ⟨rfl, extract_ec_point_shape spki97 97 (4 :: List.replicate 96 0) rfl⟩

/-- Helper: everything a successful bundle parse loop guarantees — the
parsed list has the length of the bundle, each position parses to the
corresponding certificate with a currently-valid window, and every bundle
member parses and is valid. -/
theorem parseAllCerts_sound (E : ExtEnv) :
    ∀ (ders : List (List Nat)) (i : Nat) (certs : List Cert),
      parseAllCerts E i ders = .ok certs →
      certs.length = ders.length ∧
      (∀ j, j < ders.length →
        E.parseX509 (ders.getD j []) = some (certs.getD j default) ∧
        (certs.getD j default).validityOk = true) ∧
      (∀ der ∈ ders, ∃ c, E.parseX509 der = some c ∧ c.validityOk = true) := by
  intro ders
  induction ders with
  | nil =>
    intro i certs h
    cases h
    exact ⟨rfl, fun j hj => absurd hj (by simp), fun der hder => absurd hder (by simp)⟩
  | cons der rest ih =>
    intro i certs h
    unfold parseAllCerts at h
    cases hp : E.parseX509 der with
    | none => simp only [hp] at h; cases h
    | some c =>
      simp only [hp] at h
      split at h
      · rename_i hval
        cases hrec : parseAllCerts E (i + 1) rest with
        | error e => simp only [hrec, Except.map] at h; cases h
        | ok cs =>
          simp only [hrec, Except.map] at h
          cases h
          obtain ⟨hlen, hidx, hmem⟩ := ih (i + 1) cs hrec
          refine ⟨by simp [hlen], ?_, ?_⟩
          · intro j hj
            cases j with
            | zero =>
              simp only [List.getD_cons_zero]
              exact ⟨hp, hval⟩
            | succ m =>
              simp only [List.getD_cons_succ]
              exact hidx m (by simpa using hj)
          · intro d hd
            rcases List.mem_cons.mp hd with rfl | hmem2
            · exact ⟨c, hp, hval⟩
            · exact hmem d hmem2
      · cases h

/-- Helper: a successful chain-link loop validates issuer linkage and the
per-link signature at every index it visits. -/
theorem verifyChainSteps_sound (E : ExtEnv) (cab : List (List Nat))
    (certs : List Cert) :
    ∀ l, verifyChainSteps E cab certs l = .ok () →
      ∀ i ∈ l, (certs.getD i default).issuer = (certs.getD (i - 1) default).subject ∧
        verify_cert_signature E (cab.getD i []) (certs.getD (i - 1) default) = .ok true := by
  intro l
  induction l with
  | nil => intro _ i hi; cases hi
  | cons j rest ih =>
    intro h i hi
    unfold verifyChainSteps at h
    split at h
    · cases h
    · rename_i hiss
      cases hv : verify_cert_signature E (cab.getD j []) (certs.getD (j - 1) default) with
      | error e => simp only [hv] at h; cases h
      | ok b =>
        simp only [hv] at h
        split at h
        · rename_i hb
          rcases List.mem_cons.mp hi with rfl | hmem
          · subst hb
            exact ⟨not_not.mp hiss, hv⟩
          · exact ih h i hmem
        · cases h

/-- Helper: `verify_cert_signature` returns `Ok true` only when the
certificate parses, declares one of the two supported ECDSA OIDs, the
issuer EC point extracts at the OID-matched size, and the cryptographic
verification succeeds. -/
theorem verify_cert_signature_ok_true (E : ExtEnv) (der : List Nat) (issuer : Cert)
    (h : verify_cert_signature E der issuer = .ok true) :
    ∃ c, E.parseX509 der = some c ∧
      (c.sigOid = "1.2.840.10045.4.3.3" ∨ c.sigOid = "1.2.840.10045.4.3.2") ∧
      ∃ pt, extract_ec_point issuer.pubkeyRaw
          (if c.sigOid = "1.2.840.10045.4.3.3" then 97 else 65) = .ok pt ∧
        E.ecdsaVerify c.sigOid pt c.tbs c.sigValue = true := by
  unfold verify_cert_signature at h
  cases hp : E.parseX509 der with
  | none => simp only [hp] at h; cases h
  | some c =>
    simp only [hp] at h
    split at h
    · cases h
    · rename_i hoid
      cases hext : extract_ec_point issuer.pubkeyRaw
          (if c.sigOid = "1.2.840.10045.4.3.3" then 97 else 65) with
      | error e => simp only [hext] at h; cases h
      | ok pt =>
        simp only [hext] at h
        split at h
        · rename_i hverify
          refine ⟨c, rfl, ?_, pt, hext, hverify⟩
          rcases not_and_or.mp hoid with h1 | h2
          · exact Or.inl (not_not.mp h1)
          · exact Or.inr (not_not.mp h2)
        · cases h

/-- Helper: full decomposition of a successful (non-mock) chain
validation into the facts each stage established. -/
theorem verify_certificate_chain_ok (E : ExtEnv) (allowDebug : Bool)
    (doc : AttestationDocument)
    (hmock : (allowDebug && doc.module_id.startsWith "mock-") = false)
    (h : verify_certificate_chain E allowDebug doc = .ok ()) :
    doc.cabundle ≠ [] ∧
    doc.cabundle.headD [] = E.rootCert ∧
    ∃ certs leaf,
      parseAllCerts E 0 doc.cabundle = .ok certs ∧
      certs.length = doc.cabundle.length ∧
      E.parseX509 doc.certificate = some leaf ∧
      leaf.validityOk = true ∧
      verifyChainSteps E doc.cabundle certs (List.range' 1 (certs.length - 1)) = .ok () ∧
      ∃ last, certs.getLast? = some last ∧
        leaf.issuer = last.subject ∧
        verify_cert_signature E doc.certificate last = .ok true := by
  unfold verify_certificate_chain at h
  rw [if_neg (ne_true_of_eq_false hmock)] at h
  split at h
  · cases h
  · rename_i hempty
    split at h
    · cases h
    · rename_i hroot
      cases hpa : parseAllCerts E 0 doc.cabundle with
      | error e => simp only [hpa] at h; cases h
      | ok certs =>
        simp only [hpa] at h
        cases hleaf : E.parseX509 doc.certificate with
        | none => simp only [hleaf] at h; cases h
        | some leaf =>
          simp only [hleaf] at h
          split at h
          · cases h
          · rename_i hval
            cases hsteps : verifyChainSteps E doc.cabundle certs
                (List.range' 1 (certs.length - 1)) with
            | error e => simp only [hsteps] at h; cases h
            | ok u =>
              simp only [hsteps] at h
              cases hlast : certs.getLast? with
              | none =>
                exfalso
                have hlen := (parseAllCerts_sound E doc.cabundle 0 certs hpa).1
                cases certs with
                | nil =>
                  cases hcab : doc.cabundle with
                  | nil => rw [hcab] at hempty; exact hempty rfl
                  | cons d ds => rw [hcab] at hlen; simp at hlen
                | cons c cs => simp at hlast
              | some last =>
                simp only [hlast] at h
                split at h
                · cases h
                · rename_i hiss
                  cases hvcs : verify_cert_signature E doc.certificate last with
                  | error e => simp only [hvcs] at h; cases h
                  | ok b =>
                    simp only [hvcs] at h
                    split at h
                    · rename_i hb
                      subst hb
                      refine ⟨?_, not_not.mp hroot, certs, leaf, rfl,
                        (parseAllCerts_sound E doc.cabundle 0 certs hpa).1, rfl,
                        by simpa using hval, hsteps, last, hlast,
                        not_not.mp hiss, hvcs⟩
                      intro hnil
                      rw [hnil] at hempty
                      exact hempty rfl
                    · cases h

/-- C2: if the (non-mock) chain validation succeeds then at every bundle
index `i` from 1 up, the issuer of certificate `i` equals the subject of
certificate `i-1` and its signature verifies under the public key of
certificate `i-1`
with a supported ECDSA OID declared on certificate `i` (an unsupported OID
can never survive, since `verify_cert_signature` then yields `Ok false`
and the loop errors); and the leaf issuer equals the subject of the last
bundled certificate with its signature verifying under that same
certificate. -/
theorem chain_linkage_of_success (E : ExtEnv) (allowDebug : Bool)
    (doc : AttestationDocument)
    (hmock : (allowDebug && doc.module_id.startsWith "mock-") = false)
    (h : verify_certificate_chain E allowDebug doc = .ok ()) :
    ∃ certs leaf,
      parseAllCerts E 0 doc.cabundle = .ok certs ∧
      E.parseX509 doc.certificate = some leaf ∧
      certs.length = doc.cabundle.length ∧
      (∀ i, 1 ≤ i → i < certs.length →
        (certs.getD i default).issuer = (certs.getD (i - 1) default).subject ∧
        verify_cert_signature E (doc.cabundle.getD i [])
          (certs.getD (i - 1) default) = .ok true ∧
        ((certs.getD i default).sigOid = "1.2.840.10045.4.3.3" ∨
         (certs.getD i default).sigOid = "1.2.840.10045.4.3.2")) ∧
      ∃ last, certs.getLast? = some last ∧
        leaf.issuer = last.subject ∧
        verify_cert_signature E doc.certificate last = .ok true ∧
        (leaf.sigOid = "1.2.840.10045.4.3.3" ∨
         leaf.sigOid = "1.2.840.10045.4.3.2") := by
  obtain ⟨hne, hroot, certs, leaf, hpa, hlen, hleaf, hval, hsteps, last, hlast, hiss, hvcs⟩ :=
    verify_certificate_chain_ok E allowDebug doc hmock h
  refine ⟨certs, leaf, hpa, hleaf, hlen, ?_, last, hlast, hiss, hvcs, ?_⟩
  · intro i h1 h2
    have hmem : i ∈ List.range' 1 (certs.length - 1) := by
      rw [List.mem_range']
      exact ⟨i - 1, by omega, by omega⟩
    obtain ⟨hissuer, hsig⟩ :=
      verifyChainSteps_sound E doc.cabundle certs _ hsteps i hmem
    refine ⟨hissuer, hsig, ?_⟩
    obtain ⟨c, hcparse, hcoid, _⟩ := verify_cert_signature_ok_true E _ _ hsig
    have hidx := ((parseAllCerts_sound E doc.cabundle 0 certs hpa).2.1 i (by omega)).1
    rw [hidx] at hcparse
    cases hcparse
    exact hcoid
  · obtain ⟨c, hcparse, hcoid, _⟩ := verify_cert_signature_ok_true E _ _ hvcs
    rw [hleaf] at hcparse
    cases hcparse
    exact hcoid

/-- C3: if the (non-mock) chain validation succeeds then the bundle was
nonempty, its first certificate byte-equals the pinned root, every bundled
certificate and the leaf parsed, and every validity window contains the
current instant — equivalently, an empty bundle, a root mismatch, a parse
failure or an expired certificate always makes validation fail. -/
theorem chain_prefilters_of_success (E : ExtEnv) (allowDebug : Bool)
    (doc : AttestationDocument)
    (hmock : (allowDebug && doc.module_id.startsWith "mock-") = false)
    (h : verify_certificate_chain E allowDebug doc = .ok ()) :
    doc.cabundle ≠ [] ∧
    doc.cabundle.headD [] = E.rootCert ∧
    (∀ der ∈ doc.cabundle, ∃ c, E.parseX509 der = some c ∧ c.validityOk = true) ∧
    (∃ leaf, E.parseX509 doc.certificate = some leaf ∧ leaf.validityOk = true) := by
  obtain ⟨hne, hroot, certs, leaf, hpa, hlen, hleaf, hval, hsteps, last, hlast, hiss, hvcs⟩ :=
    verify_certificate_chain_ok E allowDebug doc hmock h
  exact ⟨hne, hroot, (parseAllCerts_sound E doc.cabundle 0 certs hpa).2.2,
    leaf, hleaf, hval⟩

/-- C2 witness: the linkage theorem applied to the concrete valid chain. -/
theorem chain_linkage_of_success_witness :
    (false && docChain.module_id.startsWith "mock-") = false ∧
    verify_certificate_chain Echain false docChain = .ok () ∧
    ∃ certs leaf,
      parseAllCerts Echain 0 docChain.cabundle = .ok certs ∧
      Echain.parseX509 docChain.certificate = some leaf ∧
      certs.length = docChain.cabundle.length ∧
      (∀ i, 1 ≤ i → i < certs.length →
        (certs.getD i default).issuer = (certs.getD (i - 1) default).subject ∧
        verify_cert_signature Echain (docChain.cabundle.getD i [])
          (certs.getD (i - 1) default) = .ok true ∧
        ((certs.getD i default).sigOid = "1.2.840.10045.4.3.3" ∨
         (certs.getD i default).sigOid = "1.2.840.10045.4.3.2")) ∧
      ∃ last, certs.getLast? = some last ∧
        leaf.issuer = last.subject ∧
        verify_cert_signature Echain docChain.certificate last = .ok true ∧
        (leaf.sigOid = "1.2.840.10045.4.3.3" ∨
         leaf.sigOid = "1.2.840.10045.4.3.2") :=
  ⟨rfl, rfl, chain_linkage_of_success Echain false docChain rfl rfl⟩

/-- C3 witness: the pre-filter theorem applied to the concrete valid
chain. -/
theorem chain_prefilters_of_success_witness :
    (false && docChain.module_id.startsWith "mock-") = false ∧
    verify_certificate_chain Echain false docChain = .ok () ∧
    docChain.cabundle ≠ [] ∧
    docChain.cabundle.headD [] = Echain.rootCert ∧
    (∀ der ∈ docChain.cabundle,
      ∃ c, Echain.parseX509 der = some c ∧ c.validityOk = true) ∧
    (∃ leaf, Echain.parseX509 docChain.certificate = some leaf ∧
      leaf.validityOk = true) :=
  ⟨rfl, rfl, chain_prefilters_of_success Echain false docChain rfl rfl⟩
